import Mathlib

/-!
Shallow embedding of the topology facade of the `topojson` package
(`src/topojson/core/topology.py`) together with the coordinate quantizer
and delta encoder it relies on.  Coordinates are modelled as pairs of
rationals; the numpy padding with NaN used to put arcs of different
lengths into one array is irrelevant here because lists keep their exact
lengths.  The per-arc simplifier lives in a module that is not part of
the sources, so operations that call it are parameterized by an
arbitrary simplification function `sfn : List Arc → ℚ → List Arc`.
-/

namespace TopoSpec

/-- A coordinate: a pair of rational numbers. -/
abbrev Coord : Type := ℚ × ℚ

/-- An arc: an ordered list of coordinates. -/
abbrev Arc : Type := List Coord

/-- The `transform` member of a topology document:
`{scale: [sx, sy], translate: [tx, ty]}`. -/
structure Transform where
  scaleX : ℚ
  scaleY : ℚ
  translateX : ℚ
  translateY : ℚ
deriving DecidableEq

/-- A bounding box `[xmin, ymin, xmax, ymax]`. -/
structure BBox where
  xmin : ℚ
  ymin : ℚ
  xmax : ℚ
  ymax : ℚ
deriving DecidableEq

/-- Python option values are either booleans or numbers
(`prequantize=True`, `prequantize=1e4`, ...). -/
inductive OptVal : Type
  | bool : Bool → OptVal
  | num : ℚ → OptVal
deriving DecidableEq

/-- Python truthiness of `option > 0`: `True > 0` holds, `False > 0` does
not, and a numeric value is compared with `0`. -/
def OptVal.isPos : OptVal → Bool
  | OptVal.bool b => b
  | OptVal.num q => decide (0 < q)

/-- The factor carried by an option: the number itself when numeric, and
the default `d` when the option is a boolean (the code tests
`type(option) == bool` and substitutes the default). -/
def OptVal.factorD (v : OptVal) (d : ℚ) : ℚ :=
  match v with
  | OptVal.bool _ => d
  | OptVal.num q => q

/-- The geometry type tag of an object entry. -/
inductive GType : Type
  | point
  | multiPoint
  | lineString
  | polygon
deriving DecidableEq

/-- The coordinate payload of a geometry: point-type geometries hold
indices into the direct coordinate table until they are resolved to
literal integer pairs; other geometries hold signed arc references. -/
inductive GCoords : Type
  | idxs : List ℕ → GCoords
  | pt : ℤ × ℤ → GCoords
  | pts : List (ℤ × ℤ) → GCoords
  | arcRefs : List (List ℤ) → GCoords
deriving DecidableEq

/-- One entry of `objects["data"]["geometries"]`. -/
structure Geometry where
  gtype : GType
  coords : GCoords
deriving DecidableEq

/-- Whether a geometry type is `Point` or `MultiPoint`. -/
def isPointType : GType → Bool
  | GType.point => true
  | GType.multiPoint => true
  | _ => false

/-- The topology document (`self.output`): geometries, the arc table, the
bounding box, an optional transform and the optional direct coordinate
table (`coordinates`, popped by `_resolve_coords`). -/
structure Doc where
  objects : List Geometry
  arcs : List Arc
  bbox : BBox
  transform : Option Transform
  coordinates : Option (List Coord)
deriving DecidableEq

/-- The construction options kept on the topology that the post-hoc
transforms consult.  Simplification-algorithm options are absorbed into
the simplifier parameter `sfn`. -/
structure TopoOptions where
  prequantize : OptVal
  topoquantize : OptVal
  toposimplify : OptVal
deriving DecidableEq

/-- A constructed topology: its document and its options. -/
structure Topology where
  output : Doc
  options : TopoOptions
deriving DecidableEq

/-- Modelled from the spec: the transform of the quantizer (§4.1), with
`scale = ((xmax-xmin)/(factor-1), (ymax-ymin)/(factor-1))`,
`translate = (xmin, ymin)`, and unit scale on a degenerate axis.
The `quantize` implementation lives in the ops module, which is not
among the sources. -/
def mkTransform (bb : BBox) (f : ℚ) : Transform :=
  { scaleX := if bb.xmax = bb.xmin then 1 else (bb.xmax - bb.xmin) / (f - 1)
    scaleY := if bb.ymax = bb.ymin then 1 else (bb.ymax - bb.ymin) / (f - 1)
    translateX := bb.xmin
    translateY := bb.ymin }

/-- Modelled from the spec: one coordinate through the quantizer grid,
`round((x - translate)/scale)` per axis (§4.1). -/
def quantizeCoord (tr : Transform) (c : Coord) : Coord :=
  (((round ((c.1 - tr.translateX) / tr.scaleX) : ℤ) : ℚ),
   ((round ((c.2 - tr.translateY) / tr.scaleY) : ℤ) : ℚ))

/-- Modelled from the spec: the inverse arithmetic of the quantizer,
`x = q * scale + translate` per axis (§4.1). -/
def dequantizeCoord (tr : Transform) (c : Coord) : Coord :=
  (c.1 * tr.scaleX + tr.translateX, c.2 * tr.scaleY + tr.translateY)

/-- Modelled from the spec: `quantize(arcs, bbox, factor)` of the ops
module, returning the quantized arcs and the transform (§4.1). -/
def quantize (arcs : List Arc) (bb : BBox) (f : ℚ) : List Arc × Transform :=
  (arcs.map (List.map (quantizeCoord (mkTransform bb f))), mkTransform bb f)

/-- Modelled from the spec: quantization of the flat direct coordinate
table, same arithmetic as `quantize` (§4.1). -/
def quantizeTable (cs : List Coord) (bb : BBox) (f : ℚ) : List Coord × Transform :=
  (cs.map (quantizeCoord (mkTransform bb f)), mkTransform bb f)

/-- Tail of the delta encoder: difference each point against the
previous one. -/
def deltaAux : Coord → List Coord → List Coord
  | _, [] => []
  | prev, q :: rest => (q.1 - prev.1, q.2 - prev.2) :: deltaAux q rest

/-- Modelled from the spec: delta encoding of one arc, point 0 absolute
and point `i > 0` replaced by `point[i] - point[i-1]` (§4.2). -/
def deltaArc : Arc → Arc
  | [] => []
  | p :: rest => p :: deltaAux p rest

/-- Modelled from the spec: `delta_encoding` of the ops module applies
the per-arc delta encoder to every arc (§4.2). -/
def delta_encoding (arcs : List Arc) : List Arc :=
  arcs.map deltaArc

/-- Tail of the delta decoder: running cumulative sum. -/
def decodeAux : Coord → List Coord → List Coord
  | _, [] => []
  | prev, d :: rest =>
      (prev.1 + d.1, prev.2 + d.2) :: decodeAux (prev.1 + d.1, prev.2 + d.2) rest

/-- Modelled from the spec: the delta decoder, a running cumulative sum
from point 0 (§4.2). -/
def decodeArc : Arc → Arc
  | [] => []
  | p :: rest => p :: decodeAux p rest

/-- Modelled from the spec: full dequantization of a delta-encoded arc
table, the cumulative sum of §4.2 followed by the inverse arithmetic of
§4.1 ("first fully dequantizes existing arcs", §4.7). -/
def fullyDequantize (arcs : List Arc) (tr : Transform) : List Arc :=
  (arcs.map decodeArc).map (List.map (dequantizeCoord tr))

/-- The document value computed by `Topology.topoquantize` before the
`inplace` dispatch (`topology.py` lines 321-344): an unmodified copy when
there are no arcs, otherwise dequantize if a transform is present, then
quantize at the new factor, delta-encode, store the new transform and
record the factor in the options. -/
def topoquantizeResult (t : Topology) (f : ℚ) : Topology :=
  if t.output.arcs = [] then t
  else
    let arcs1 :=
      match t.output.transform with
      | some tr => fullyDequantize t.output.arcs tr
      | none => t.output.arcs
    { output :=
        { t.output with
          arcs := delta_encoding ((quantize arcs1 t.output.bbox f).1)
          transform := some ((quantize arcs1 t.output.bbox f).2) }
      options := { t.options with topoquantize := OptVal.num f } }

/-- `Topology.topoquantize` as a state transformer: the pair of the new
state of `self` and the returned value.  With `inplace=True` the method
ends in `self = result`, which rebinds only the local name, so the
caller's object is unchanged and `None` is returned; with
`inplace=False` the result computed on the deep copy is returned. -/
def pyTopoquantize (t : Topology) (f : ℚ) (inplace : Bool) :
    Topology × Option Topology :=
  if inplace then (t, none)
  else (t, some (topoquantizeResult t f))

/-- The quantization factor selection of `Topology.toposimplify`
(`topology.py` lines 400-412): the `topoquantize` option when positive
(with default `1e6` for a boolean), else the `prequantize` option when
positive (same default), else none — on that last path the Python code
reads the unassigned local `quant_factor` and raises `NameError`. -/
def selectQuantFactor (o : TopoOptions) : Option ℚ :=
  if o.topoquantize.isPos then some (o.topoquantize.factorD 1000000)
  else if o.prequantize.isPos then some (o.prequantize.factorD 1000000)
  else none

/-- The simplified arcs computed by `Topology.toposimplify`
(`topology.py` lines 377-397): skipped when the arc table is empty,
otherwise the simplifier runs on the fully dequantized arcs when a
transform is present and on the raw arcs otherwise. -/
def simpArcs (sfn : List Arc → ℚ → List Arc) (t : Topology) (eps : ℚ) :
    List Arc :=
  if t.output.arcs = [] then t.output.arcs
  else
    match t.output.transform with
    | some tr => sfn (fullyDequantize t.output.arcs tr) eps
    | none => sfn t.output.arcs eps

/-- The re-quantized document produced by `Topology.toposimplify` when
the document has a transform (`topology.py` lines 414-423): arcs
quantized at `qf` and delta-encoded, the direct coordinate table
quantized at the same factor, and the transform replaced. -/
def requantDoc (sfn : List Arc → ℚ → List Arc) (t : Topology) (eps qf : ℚ)
    (cs : List Coord) : Doc :=
  { t.output with
    arcs := delta_encoding ((quantize (simpArcs sfn t eps) t.output.bbox qf).1)
    coordinates := some ((quantizeTable cs t.output.bbox qf).1)
    transform := some ((quantizeTable cs t.output.bbox qf).2) }

/-- The document value computed by `Topology.toposimplify` on the deep
copy (`topology.py` lines 375-423), or `none` when the Python code would
raise before reaching the `inplace` dispatch (unassigned `quant_factor`,
or a missing `coordinates` key while re-quantizing). -/
def toposimplifyResult (sfn : List Arc → ℚ → List Arc) (t : Topology)
    (eps : ℚ) : Option Doc :=
  match t.output.transform with
  | none => some { t.output with arcs := simpArcs sfn t eps }
  | some _ =>
    match selectQuantFactor t.options, t.output.coordinates with
    | some qf, some cs => some (requantDoc sfn t eps qf cs)
    | _, _ => none

/-- `Topology.toposimplify` as a state transformer: the new state of
`self` and the returned value.  A raised exception propagates before any
write to `self`; with `inplace=True` the arcs field is assigned and the
transform field is assigned only when the result document carries the
key; with `inplace=False` the result is returned and `self` untouched. -/
def pyToposimplify (sfn : List Arc → ℚ → List Arc) (t : Topology) (eps : ℚ)
    (inplace : Bool) : Topology × Option Topology :=
  match toposimplifyResult sfn t eps with
  | none => (t, none)
  | some d =>
    if inplace then
      ({ t with
          output :=
            { t.output with
              arcs := d.arcs
              transform :=
                if d.transform.isSome then d.transform else t.output.transform } },
       none)
    else (t, some { output := d, options := t.options })

/-- `Topology._topo` (`topology.py` lines 454-475): install the
linestrings as the arc table, delta-encode them exactly when
`prequantize > 0`, and run `toposimplify` in place when the
`toposimplify` option is positive (with default epsilon `0.0001` for a
boolean option). -/
def topoStep (sfn : List Arc → ℚ → List Arc) (t : Topology)
    (linestrings : List Arc) : Topology :=
  let arcs1 :=
    if t.options.prequantize.isPos then delta_encoding linestrings
    else linestrings
  let t1 : Topology := { t with output := { t.output with arcs := arcs1 } }
  if t.options.toposimplify.isPos then
    (pyToposimplify sfn t1 (t.options.toposimplify.factorD (1 / 10000)) true).1
  else t1

/-- Python `int()` on a rational: truncation toward zero. -/
def pyInt (q : ℚ) : ℤ :=
  if 0 ≤ q then ⌊q⌋ else ⌈q⌉

/-- The literal pairs `[int(x), int(y)]` looked up in the direct
coordinate table by `Topology._resolve_coords` (`topology.py`
lines 445-447). -/
def resolvePointList (table : List Coord) (l : List ℕ) : List (ℤ × ℤ) :=
  l.map fun i => (pyInt (table.getD i (0, 0)).1, pyInt (table.getD i (0, 0)).2)

/-- `Topology._resolve_coords` on one geometry: a `Point` or
`MultiPoint` has its index list replaced by literal truncated pairs, a
single pair being unwrapped (`lofl[0] if len(lofl) == 1 else lofl`). -/
def resolveFeat (table : List Coord) (g : Geometry) : Geometry :=
  if isPointType g.gtype then
    match g.coords with
    | GCoords.idxs l =>
        { g with
          coords :=
            match resolvePointList table l with
            | [p] => GCoords.pt p
            | ps => GCoords.pts ps }
    | _ => g
  else g

/-- `Topology._resolve_coords` (`topology.py` lines 434-452): resolve
every point-type geometry against the direct coordinate table and pop
the `coordinates` key. -/
def resolveCoords (d : Doc) : Doc :=
  { d with
    objects := d.objects.map (resolveFeat (d.coordinates.getD []))
    coordinates := none }

/-- `Topology.to_dict` as a state transformer (`topology.py`
lines 114-128): resolve the coordinates of a deep copy of the document
and return it; `self` is untouched. -/
def to_dict (t : Topology) : Topology × Doc :=
  (t, resolveCoords t.output)

/-- `Topology.to_json` as a state transformer (`topology.py`
lines 145-174, `fp=None`): serialize the resolved deep copy through the
out-of-scope JSON adapter `ser`; `self` is untouched. -/
def to_json (ser : Doc → String) (t : Topology) : Topology × String :=
  (t, ser (resolveCoords t.output))

/-- `Topology.to_geojson` as a state transformer (`topology.py`
lines 176-219, `fp=None`): resolve a deep copy, convert through the
out-of-scope GeoJSON adapter `sg`, serialize through `sj`; `self` is
untouched. -/
def to_geojson (sg : Doc → Doc) (sj : Doc → String) (t : Topology) :
    Topology × String :=
  (t, sj (sg (resolveCoords t.output)))

/-- The running cumulative sum undoes the running difference. -/
theorem decodeAux_deltaAux (l : List Coord) :
    ∀ p : Coord, decodeAux p (deltaAux p l) = l := by
  induction l with
  | nil => intro p; rfl
  | cons q rest ih =>
    intro p
    obtain ⟨q1, q2⟩ := q
    have h1 : p.1 + (q1 - p.1) = q1 := by ring
    have h2 : p.2 + (q2 - p.2) = q2 := by ring
    simp only [deltaAux, decodeAux, h1, h2]
    exact congrArg (List.cons (q1, q2)) (ih (q1, q2))

/-- The delta decoder inverts the delta encoder on every arc. -/
theorem decodeArc_deltaArc (a : Arc) : decodeArc (deltaArc a) = a := by
  cases a with
  | nil => rfl
  | cons p rest =>
    simp only [deltaArc, decodeArc]
    exact congrArg (List.cons p) (decodeAux_deltaAux rest p)

/-- For a factor other than `1`, both scale components of the quantizer
transform are nonzero (the degenerate fallback makes them `1`). -/
theorem mkTransform_scale_ne_zero (bb : BBox) (f : ℚ) (hf : f ≠ 1) :
    (mkTransform bb f).scaleX ≠ 0 ∧ (mkTransform bb f).scaleY ≠ 0 := by
  constructor
  · show (if bb.xmax = bb.xmin then 1 else (bb.xmax - bb.xmin) / (f - 1)) ≠ 0
    split
    · exact one_ne_zero
    · next h =>
      exact div_ne_zero (sub_ne_zero_of_ne h) (sub_ne_zero_of_ne hf)
  · show (if bb.ymax = bb.ymin then 1 else (bb.ymax - bb.ymin) / (f - 1)) ≠ 0
    split
    · exact one_ne_zero
    · next h =>
      exact div_ne_zero (sub_ne_zero_of_ne h) (sub_ne_zero_of_ne hf)

/-- Rounding the re-scaled dequantization of a rounded value gives the
rounded value back. -/
theorem round_affine (s tt x : ℚ) (hs : s ≠ 0) :
    round ((((round ((x - tt) / s) : ℤ) : ℚ) * s + tt - tt) / s) =
      round ((x - tt) / s) := by
  rw [add_sub_cancel_right, mul_div_cancel_right₀ _ hs, round_intCast]

/-- Quantize, dequantize, quantize collapses to a single quantization
when both scale components are nonzero. -/
theorem quantizeCoord_stable (tr : Transform) (hx : tr.scaleX ≠ 0)
    (hy : tr.scaleY ≠ 0) (c : Coord) :
    quantizeCoord tr (dequantizeCoord tr (quantizeCoord tr c)) =
      quantizeCoord tr c := by
  unfold quantizeCoord dequantizeCoord
  dsimp only
  simp only [Prod.mk.injEq]
  constructor
  · exact_mod_cast round_affine tr.scaleX tr.translateX c.1 hx
  · exact_mod_cast round_affine tr.scaleY tr.translateY c.2 hy

/-- Full dequantization followed by re-quantization at the same
transform is the identity on an already quantized, delta-encoded arc
table. -/
theorem requantize_stable (tr : Transform) (hx : tr.scaleX ≠ 0)
    (hy : tr.scaleY ≠ 0) (arcs : List Arc) :
    (fullyDequantize
        (delta_encoding (arcs.map (List.map (quantizeCoord tr)))) tr).map
        (List.map (quantizeCoord tr)) =
      arcs.map (List.map (quantizeCoord tr)) := by
  unfold fullyDequantize delta_encoding
  simp only [List.map_map]
  refine List.map_congr_left ?_
  intro a _
  simp only [Function.comp]
  rw [decodeArc_deltaArc]
  simp only [List.map_map]
  refine List.map_congr_left ?_
  intro c _
  exact quantizeCoord_stable tr hx hy c

/-- A concrete topology with one unquantized two-point arc and no
transform, used to exhibit the `inplace=True` bug of `topoquantize`. -/
def tBug : Topology :=
  { output :=
      { objects := []
        arcs := [[(0, 0), (2, 3)]]
        bbox := { xmin := 0, ymin := 0, xmax := 2, ymax := 3 }
        transform := none
        coordinates := some [] }
    options :=
      { prequantize := OptVal.num 0
        topoquantize := OptVal.bool false
        toposimplify := OptVal.bool false } }

/-- Claim C1: `topoquantize(quant_factor, inplace=True)` is supposed to
replace the caller's arcs and transform fields, but the method ends in
`self = result`, which only rebinds the local name.  On a topology with
a non-empty arc table the caller's document keeps its unquantized arcs
and still has no transform, although the computed result would have
carried one. -/
theorem topoquantize_inplace_leaves_caller_unchanged :
    (pyTopoquantize tBug 100 true).1 = tBug ∧
    (pyTopoquantize tBug 100 true).2 = none ∧
    tBug.output.transform = none ∧
    (topoquantizeResult tBug 100).output.transform =
      some (mkTransform tBug.output.bbox 100) := by
  refine ⟨rfl, rfl, rfl, ?_⟩
  unfold topoquantizeResult
  rw [if_neg (by decide : ¬(tBug.output.arcs = []))]
  rfl

/-- Claim C2: `toposimplify(epsilon, inplace=True)` overwrites only the
arcs field of the caller's document, and the transform field when the
result document carries one; objects, bbox, the direct coordinate table
and the options are untouched, and `None` is returned. -/
theorem toposimplify_inplace_frame (sfn : List Arc → ℚ → List Arc)
    (t : Topology) (eps : ℚ) (d : Doc)
    (h : toposimplifyResult sfn t eps = some d) :
    (pyToposimplify sfn t eps true).1.output.objects = t.output.objects ∧
    (pyToposimplify sfn t eps true).1.output.bbox = t.output.bbox ∧
    (pyToposimplify sfn t eps true).1.output.coordinates =
      t.output.coordinates ∧
    (pyToposimplify sfn t eps true).1.options = t.options ∧
    (pyToposimplify sfn t eps true).1.output.arcs = d.arcs ∧
    (pyToposimplify sfn t eps true).1.output.transform =
      (if d.transform.isSome then d.transform else t.output.transform) ∧
    (pyToposimplify sfn t eps true).2 = none := by
  unfold pyToposimplify
  rw [h]
  exact ⟨rfl, rfl, rfl, rfl, rfl, rfl, rfl⟩

/-- Claim C4: on an already quantized topology with non-empty arcs,
`topoquantize(f)` first fully dequantizes the arcs with the current
scale and translate, then re-quantizes at `f` and re-delta-encodes, and
the returned document carries the transform derived from `f`. -/
theorem topoquantize_dequantizes_first (t : Topology) (f : ℚ)
    (tr : Transform) (h1 : t.output.transform = some tr)
    (h2 : t.output.arcs ≠ []) :
    (topoquantizeResult t f).output.arcs =
      delta_encoding
        ((quantize (fullyDequantize t.output.arcs tr) t.output.bbox f).1) ∧
    (topoquantizeResult t f).output.transform =
      some (mkTransform t.output.bbox f) := by
  unfold topoquantizeResult
  rw [if_neg h2, h1]
  exact ⟨rfl, rfl⟩

/-- Claim C5: on a topology whose arc table is empty, `topoquantize(f)`
returns an unmodified copy: the whole topology value, document and
options, is returned unchanged, so no transform is added or changed. -/
theorem topoquantize_empty_noop (t : Topology) (f : ℚ)
    (h : t.output.arcs = []) :
    topoquantizeResult t f = t ∧
    pyTopoquantize t f false = (t, some t) := by
  have e : topoquantizeResult t f = t := by
    unfold topoquantizeResult
    rw [if_pos h]
  refine ⟨e, ?_⟩
  unfold pyTopoquantize
  rw [e]
  rfl

/-- Claim C6: with `inplace=False`, both `topoquantize` and
`toposimplify` leave the original topology value entirely unchanged
(they compute on a deep copy) and return the derived topology. -/
theorem transforms_return_copy (sfn : List Arc → ℚ → List Arc)
    (t : Topology) (f eps : ℚ) :
    (pyTopoquantize t f false).1 = t ∧
    (pyTopoquantize t f false).2 = some (topoquantizeResult t f) ∧
    (pyToposimplify sfn t eps false).1 = t ∧
    (∀ d : Doc, toposimplifyResult sfn t eps = some d →
      (pyToposimplify sfn t eps false).2 =
        some { output := d, options := t.options }) := by
  refine ⟨rfl, rfl, ?_, ?_⟩
  · unfold pyToposimplify
    cases h : toposimplifyResult sfn t eps with
    | none => rfl
    | some d => rfl
  · intro d h
    unfold pyToposimplify
    rw [h]
    rfl

/-- Claim C10: `to_dict`, `to_json` and `to_geojson` operate on a deep
copy of the document: the topology itself, in particular its direct
coordinate table, is unchanged, and repeating the same serializer yields
an equal result. -/
theorem serializers_act_on_copy (t : Topology) (ser : Doc → String)
    (sg : Doc → Doc) (sj : Doc → String) :
    (to_dict t).1 = t ∧
    (to_json ser t).1 = t ∧
    (to_geojson sg sj t).1 = t ∧
    (to_dict t).1.output.coordinates = t.output.coordinates ∧
    (to_dict ((to_dict t).1)).2 = (to_dict t).2 ∧
    (to_json ser ((to_json ser t).1)).2 = (to_json ser t).2 ∧
    (to_geojson sg sj ((to_geojson sg sj t).1)).2 =
      (to_geojson sg sj t).2 :=
  ⟨rfl, rfl, rfl, rfl, rfl, rfl, rfl⟩

/-- Applying `topoquantize` at factor `f` to a topology that already
holds arcs quantized at `f` (delta-encoded, with the matching transform)
leaves the arc table unchanged. -/
theorem second_call_same (t : Topology) (f : ℚ) (A1 : List Arc)
    (hf : f ≠ 1) (hA1 : A1 ≠ []) :
    (topoquantizeResult
        { output :=
            { t.output with
              arcs := delta_encoding
                  (A1.map (List.map (quantizeCoord (mkTransform t.output.bbox f))))
              transform := some (mkTransform t.output.bbox f) }
          options := { t.options with topoquantize := OptVal.num f } }
        f).output.arcs =
      delta_encoding
        (A1.map (List.map (quantizeCoord (mkTransform t.output.bbox f)))) := by
  obtain ⟨hx, hy⟩ := mkTransform_scale_ne_zero t.output.bbox f hf
  have hne : delta_encoding
      (A1.map (List.map (quantizeCoord (mkTransform t.output.bbox f)))) ≠ [] := by
    unfold delta_encoding
    simp [hA1]
  unfold topoquantizeResult
  rw [if_neg hne]
  show delta_encoding
      ((quantize
        (fullyDequantize
          (delta_encoding
            (A1.map (List.map (quantizeCoord (mkTransform t.output.bbox f)))))
          (mkTransform t.output.bbox f))
        t.output.bbox f).1) = _
  unfold quantize
  exact congrArg delta_encoding
    (requantize_stable (mkTransform t.output.bbox f) hx hy A1)

/-- Claim C3: `topoquantize(f)` applied twice consecutively yields a
byte-identical arc table both times (for a genuine factor `f ≠ 1`; at
`f = 1` the Python code divides by zero building the scale). -/
theorem topoquantize_idempotent (t : Topology) (f : ℚ) (hf : f ≠ 1) :
    (topoquantizeResult (topoquantizeResult t f) f).output.arcs =
      (topoquantizeResult t f).output.arcs := by
  by_cases h : t.output.arcs = []
  · have e : topoquantizeResult t f = t := by
      unfold topoquantizeResult
      rw [if_pos h]
    rw [e, e]
  · cases htr : t.output.transform with
    | none =>
      have e1 : topoquantizeResult t f =
          { output :=
              { t.output with
                arcs := delta_encoding
                    (t.output.arcs.map
                      (List.map (quantizeCoord (mkTransform t.output.bbox f))))
                transform := some (mkTransform t.output.bbox f) }
            options := { t.options with topoquantize := OptVal.num f } } := by
        unfold topoquantizeResult
        rw [if_neg h, htr]
        rfl
      rw [e1, second_call_same t f t.output.arcs hf h]
    | some tr0 =>
      have hA1 : fullyDequantize t.output.arcs tr0 ≠ [] := by
        unfold fullyDequantize
        simp [h]
      have e1 : topoquantizeResult t f =
          { output :=
              { t.output with
                arcs := delta_encoding
                    ((fullyDequantize t.output.arcs tr0).map
                      (List.map (quantizeCoord (mkTransform t.output.bbox f))))
                transform := some (mkTransform t.output.bbox f) }
            options := { t.options with topoquantize := OptVal.num f } } := by
        unfold topoquantizeResult
        rw [if_neg h, htr]
        rfl
      rw [e1, second_call_same t f (fullyDequantize t.output.arcs tr0) hf hA1]

/-- A positive `prequantize` option guarantees the factor selection of
`toposimplify` succeeds. -/
theorem selectQuantFactor_isSome_of_prequantize (o : TopoOptions)
    (hp : o.prequantize.isPos = true) :
    ∃ qf : ℚ, selectQuantFactor o = some qf := by
  unfold selectQuantFactor
  by_cases hq : o.topoquantize.isPos = true
  · exact ⟨o.topoquantize.factorD 1000000, by rw [if_pos hq]⟩
  · refine ⟨o.prequantize.factorD 1000000, ?_⟩
    rw [if_neg hq, if_pos hp]

/-- In-place `toposimplify` on a document with a transform installs the
re-quantized, delta-encoded arcs. -/
theorem inplace_simplify_arcs_requant (sfn : List Arc → ℚ → List Arc)
    (t1 : Topology) (eps : ℚ) (tr : Transform) (qf : ℚ) (cs : List Coord)
    (htr : t1.output.transform = some tr)
    (hqf : selectQuantFactor t1.options = some qf)
    (hcs : t1.output.coordinates = some cs) :
    (pyToposimplify sfn t1 eps true).1.output.arcs =
      delta_encoding ((quantize (simpArcs sfn t1 eps) t1.output.bbox qf).1) := by
  have hres : toposimplifyResult sfn t1 eps =
      some (requantDoc sfn t1 eps qf cs) := by
    unfold toposimplifyResult
    rw [htr, hqf, hcs]
  unfold pyToposimplify
  rw [hres]
  rfl

/-- In-place `toposimplify` on a document without a transform installs
the simplified arcs untouched. -/
theorem inplace_simplify_arcs_plain (sfn : List Arc → ℚ → List Arc)
    (t1 : Topology) (eps : ℚ) (htr : t1.output.transform = none) :
    (pyToposimplify sfn t1 eps true).1.output.arcs = simpArcs sfn t1 eps := by
  have hres : toposimplifyResult sfn t1 eps =
      some { t1.output with arcs := simpArcs sfn t1 eps } := by
    unfold toposimplifyResult
    rw [htr]
  unfold pyToposimplify
  rw [hres]
  rfl

/-- Claim C7: during construction the arc table is delta-encoded exactly
when prequantization is active: under `prequantize > 0` the final arcs
are the delta encoding of the raw linestrings (`toposimplify` off), or
the delta encoding of the re-quantized simplified arcs at the selected
factor (`toposimplify` on); otherwise they are the plain absolute
coordinate lists (the raw linestrings, or their per-arc simplification
when the `toposimplify` option is on), with no differencing applied.
The premises record that a constructed document is quantized (carries a
transform) precisely when `prequantize` is active and always carries the
direct coordinate table. -/
theorem construction_delta_iff_prequantize (sfn : List Arc → ℚ → List Arc)
    (t : Topology) (ls : List Arc)
    (h1 : t.output.transform.isSome = t.options.prequantize.isPos)
    (h2 : t.output.coordinates.isSome = true) :
    (t.options.prequantize.isPos = true →
      t.options.toposimplify.isPos = false →
      (topoStep sfn t ls).output.arcs = delta_encoding ls) ∧
    (t.options.prequantize.isPos = true →
      t.options.toposimplify.isPos = true →
      ∀ qf : ℚ, selectQuantFactor t.options = some qf →
      (topoStep sfn t ls).output.arcs =
        delta_encoding
          ((quantize
            (simpArcs sfn
              { t with output := { t.output with arcs := delta_encoding ls } }
              (t.options.toposimplify.factorD (1 / 10000)))
            t.output.bbox qf).1)) ∧
    (t.options.prequantize.isPos = false →
      (topoStep sfn t ls).output.arcs =
        (if t.options.toposimplify.isPos then
          (if ls = [] then ls
           else sfn ls (t.options.toposimplify.factorD (1 / 10000)))
         else ls)) := by
  obtain ⟨cs, hcs⟩ := Option.isSome_iff_exists.mp h2
  refine ⟨?_, ?_, ?_⟩
  · intro hp hts
    have estep : topoStep sfn t ls =
        { t with output := { t.output with arcs := delta_encoding ls } } := by
      unfold topoStep
      rw [hp, if_neg (by rw [hts]; exact Bool.false_ne_true)]
      rfl
    rw [estep]
  · intro hp hts qf hqf
    obtain ⟨tr, htr⟩ := Option.isSome_iff_exists.mp (h1.trans hp)
    have estep : topoStep sfn t ls =
        (pyToposimplify sfn
          { t with output := { t.output with arcs := delta_encoding ls } }
          (t.options.toposimplify.factorD (1 / 10000)) true).1 := by
      unfold topoStep
      rw [hp, hts]
      rfl
    rw [estep]
    exact inplace_simplify_arcs_requant sfn _ _ tr qf cs htr hqf hcs
  · intro hp
    have htr : t.output.transform = none := by
      cases htr2 : t.output.transform with
      | none => rfl
      | some tr =>
        rw [htr2] at h1
        rw [hp] at h1
        simp at h1
    by_cases hts : t.options.toposimplify.isPos = true
    · have estep : topoStep sfn t ls =
          (pyToposimplify sfn { t with output := { t.output with arcs := ls } }
            (t.options.toposimplify.factorD (1 / 10000)) true).1 := by
        unfold topoStep
        rw [hp, hts]
        rfl
      rw [estep, hts,
        inplace_simplify_arcs_plain sfn
          { t with output := { t.output with arcs := ls } }
          (t.options.toposimplify.factorD (1 / 10000)) htr]
      unfold simpArcs
      dsimp only
      rw [htr]
      rfl
    · have estep : topoStep sfn t ls =
          { t with output := { t.output with arcs := ls } } := by
        unfold topoStep
        rw [hp, if_neg hts]
        rfl
      rw [estep, if_neg hts]

/-- Claim C8: when `toposimplify` re-quantizes a document that carries a
transform, the factor is the `topoquantize` option when positive (with
`1e6` for the boolean `True`), otherwise the `prequantize` option (same
default); when the document has no transform the simplified arcs are
stored as they are, unquantized and not delta-encoded, and no transform
is added. -/
theorem toposimplify_factor_rule (sfn : List Arc → ℚ → List Arc)
    (t : Topology) (eps : ℚ) :
    (t.output.transform = none →
      toposimplifyResult sfn t eps =
        some { t.output with arcs := simpArcs sfn t eps }) ∧
    (∀ (tr : Transform) (cs : List Coord),
      t.output.transform = some tr → t.output.coordinates = some cs →
      (t.options.topoquantize.isPos = true →
        toposimplifyResult sfn t eps =
          some (requantDoc sfn t eps (t.options.topoquantize.factorD 1000000) cs)) ∧
      (t.options.topoquantize = OptVal.bool true →
        toposimplifyResult sfn t eps =
          some (requantDoc sfn t eps 1000000 cs)) ∧
      (t.options.topoquantize.isPos = false →
        t.options.prequantize.isPos = true →
        toposimplifyResult sfn t eps =
          some (requantDoc sfn t eps (t.options.prequantize.factorD 1000000) cs)) ∧
      (t.options.topoquantize.isPos = false →
        t.options.prequantize = OptVal.bool true →
        toposimplifyResult sfn t eps =
          some (requantDoc sfn t eps 1000000 cs))) := by
  constructor
  · intro h
    unfold toposimplifyResult
    rw [h]
  · intro tr cs htr hcs
    refine ⟨?_, ?_, ?_, ?_⟩
    · intro hq
      unfold toposimplifyResult selectQuantFactor
      rw [htr, hcs, if_pos hq]
    · intro hq
      have hq2 : t.options.topoquantize.isPos = true := by
        rw [hq]
        rfl
      have hf : t.options.topoquantize.factorD 1000000 = 1000000 := by
        rw [hq]
        rfl
      unfold toposimplifyResult selectQuantFactor
      rw [htr, hcs, if_pos hq2, hf]
    · intro hq hp
      unfold toposimplifyResult selectQuantFactor
      rw [htr, hcs, if_neg (by rw [hq]; exact Bool.false_ne_true), if_pos hp]
    · intro hq hp
      have hp2 : t.options.prequantize.isPos = true := by
        rw [hp]
        rfl
      have hf : t.options.prequantize.factorD 1000000 = 1000000 := by
        rw [hp]
        rfl
      unfold toposimplifyResult selectQuantFactor
      rw [htr, hcs, if_neg (by rw [hq]; exact Bool.false_ne_true), if_pos hp2, hf]

/-- Claim C9: materialization replaces a `Point`/`MultiPoint` geometry's
indices into the direct coordinate table by the literal pairs obtained
by truncating each looked-up coordinate with Python `int()` (a single
pair being unwrapped), and removes the `coordinates` table from the
returned document. -/
theorem to_dict_truncates_points (t : Topology) (table : List Coord)
    (k : ℕ) (g : Geometry) (l : List ℕ)
    (hc : t.output.coordinates = some table)
    (hg : t.output.objects.get? k = some g)
    (hty : isPointType g.gtype = true)
    (hco : g.coords = GCoords.idxs l) :
    (to_dict t).2.coordinates = none ∧
    (to_dict t).2.objects.get? k =
      some { g with coords :=
        match resolvePointList table l with
        | [p] => GCoords.pt p
        | ps => GCoords.pts ps } := by
  constructor
  · rfl
  · show (resolveCoords t.output).objects.get? k = _
    unfold resolveCoords
    dsimp only
    rw [List.get?_map, hg, hc]
    simp only [Option.getD_some, Option.map_some']
    unfold resolveFeat
    rw [if_pos hty, hco]

/-- The identity simplification function, a concrete instance of the
abstract simplifier parameter used by the witnesses. -/
def sfnId : List Arc → ℚ → List Arc := fun a _ => a

/-- A concrete topology with a non-empty unquantized arc table. -/
def tW : Topology :=
  { output :=
      { objects := []
        arcs := [[(0, 0), (2, 3)]]
        bbox := { xmin := 0, ymin := 0, xmax := 2, ymax := 3 }
        transform := none
        coordinates := some [] }
    options :=
      { prequantize := OptVal.bool true
        topoquantize := OptVal.bool false
        toposimplify := OptVal.bool false } }

/-- A concrete unit transform. -/
def trUnit : Transform :=
  { scaleX := 1, scaleY := 1, translateX := 0, translateY := 0 }

/-- A concrete topology with an empty arc table. -/
def tE : Topology :=
  { output :=
      { objects := []
        arcs := []
        bbox := { xmin := 0, ymin := 0, xmax := 1, ymax := 1 }
        transform := none
        coordinates := some [] }
    options :=
      { prequantize := OptVal.bool true
        topoquantize := OptVal.bool false
        toposimplify := OptVal.bool false } }

/-- A concrete quantized topology with a non-empty arc table. -/
def tQd : Topology :=
  { output :=
      { objects := []
        arcs := [[(0, 0), (1, 1)]]
        bbox := { xmin := 0, ymin := 0, xmax := 1, ymax := 1 }
        transform := some trUnit
        coordinates := some [] }
    options :=
      { prequantize := OptVal.bool true
        topoquantize := OptVal.bool false
        toposimplify := OptVal.bool false } }

/-- A concrete quantized topology with numeric `prequantize`. -/
def t7 : Topology :=
  { output :=
      { objects := []
        arcs := []
        bbox := { xmin := 0, ymin := 0, xmax := 1, ymax := 1 }
        transform := some trUnit
        coordinates := some [] }
    options :=
      { prequantize := OptVal.num 2
        topoquantize := OptVal.bool false
        toposimplify := OptVal.bool false } }

/-- A concrete quantized topology with numeric `prequantize` and the
`toposimplify` option switched on. -/
def t7b : Topology :=
  { output :=
      { objects := []
        arcs := []
        bbox := { xmin := 0, ymin := 0, xmax := 1, ymax := 1 }
        transform := some trUnit
        coordinates := some [] }
    options :=
      { prequantize := OptVal.num 2
        topoquantize := OptVal.bool false
        toposimplify := OptVal.bool true } }

/-- A concrete quantized topology with boolean `topoquantize=True`. -/
def t8 : Topology :=
  { output :=
      { objects := []
        arcs := []
        bbox := { xmin := 0, ymin := 0, xmax := 1, ymax := 1 }
        transform := some trUnit
        coordinates := some [] }
    options :=
      { prequantize := OptVal.bool true
        topoquantize := OptVal.bool true
        toposimplify := OptVal.bool false } }

/-- A concrete `Point` geometry referencing table entry 0. -/
def g9 : Geometry := { gtype := GType.point, coords := GCoords.idxs [0] }

/-- A concrete topology whose direct coordinate table holds one
non-integer coordinate pair. -/
def t9 : Topology :=
  { output :=
      { objects := [g9]
        arcs := []
        bbox := { xmin := 0, ymin := 0, xmax := 1, ymax := 1 }
        transform := none
        coordinates := some [((3 : ℚ) / 2, (-7 : ℚ) / 4)] }
    options :=
      { prequantize := OptVal.bool false
        topoquantize := OptVal.bool false
        toposimplify := OptVal.bool false } }

/-- Witness for the claim C2 theorem at a concrete topology. -/
theorem toposimplify_inplace_frame_witness :
    (pyToposimplify sfnId tW 0 true).1.output.objects = tW.output.objects ∧
    (pyToposimplify sfnId tW 0 true).1.output.bbox = tW.output.bbox ∧
    (pyToposimplify sfnId tW 0 true).1.output.coordinates =
      tW.output.coordinates ∧
    (pyToposimplify sfnId tW 0 true).1.options = tW.options ∧
    (pyToposimplify sfnId tW 0 true).1.output.arcs = tW.output.arcs ∧
    (pyToposimplify sfnId tW 0 true).1.output.transform =
      (if tW.output.transform.isSome then tW.output.transform
       else tW.output.transform) ∧
    (pyToposimplify sfnId tW 0 true).2 = none :=
  toposimplify_inplace_frame sfnId tW 0 tW.output rfl

/-- Witness for the claim C3 theorem at a concrete topology and
factor. -/
theorem topoquantize_idempotent_witness :
    (2 : ℚ) ≠ 1 ∧
    (topoquantizeResult (topoquantizeResult tW 2) 2).output.arcs =
      (topoquantizeResult tW 2).output.arcs :=
  ⟨by norm_num, topoquantize_idempotent tW 2 (by norm_num)⟩

/-- Witness for the claim C4 theorem at a concrete quantized
topology. -/
theorem topoquantize_dequantizes_first_witness :
    (topoquantizeResult tQd 3).output.arcs =
      delta_encoding
        ((quantize (fullyDequantize tQd.output.arcs trUnit)
          tQd.output.bbox 3).1) ∧
    (topoquantizeResult tQd 3).output.transform =
      some (mkTransform tQd.output.bbox 3) :=
  topoquantize_dequantizes_first tQd 3 trUnit rfl (by decide)

/-- Witness for the claim C5 theorem at a concrete arc-less topology. -/
theorem topoquantize_empty_noop_witness :
    topoquantizeResult tE 7 = tE ∧
    pyTopoquantize tE 7 false = (tE, some tE) :=
  topoquantize_empty_noop tE 7 rfl

/-- Witness for the claim C6 theorem at a concrete topology. -/
theorem transforms_return_copy_witness :
    (pyTopoquantize tW 5 false).1 = tW ∧
    (pyTopoquantize tW 5 false).2 = some (topoquantizeResult tW 5) ∧
    (pyToposimplify sfnId tW 0 false).1 = tW ∧
    (pyToposimplify sfnId tW 0 false).2 =
      some { output := tW.output, options := tW.options } := by
  have h := transforms_return_copy sfnId tW 5 0
  exact ⟨h.1, h.2.1, h.2.2.1, h.2.2.2 tW.output rfl⟩

/-- Witness for the claim C7 theorem at two concrete topologies built
with `prequantize=2`: with `toposimplify` off the arcs are exactly the
delta encoding of the linestrings, and with `toposimplify` on they are
exactly the delta encoding of the re-quantized simplified arcs at the
selected factor `2`. -/
theorem construction_delta_iff_prequantize_witness :
    (topoStep sfnId t7 [[(0, 0), (1, 1)]]).output.arcs =
      delta_encoding [[(0, 0), (1, 1)]] ∧
    (topoStep sfnId t7b [[(0, 0), (1, 1)]]).output.arcs =
      delta_encoding
        ((quantize
          (simpArcs sfnId
            { t7b with output :=
                { t7b.output with
                  arcs := delta_encoding [[(0, 0), (1, 1)]] } }
            (t7b.options.toposimplify.factorD (1 / 10000)))
          t7b.output.bbox 2).1) := by
  have h := construction_delta_iff_prequantize sfnId t7 [[(0, 0), (1, 1)]]
    rfl rfl
  have hb := construction_delta_iff_prequantize sfnId t7b [[(0, 0), (1, 1)]]
    rfl rfl
  exact ⟨h.1 rfl rfl, hb.2.1 rfl rfl 2 rfl⟩

/-- Witness for the claim C8 theorem at a concrete quantized topology
with `topoquantize=True`. -/
theorem toposimplify_factor_rule_witness :
    toposimplifyResult sfnId t8 0 = some (requantDoc sfnId t8 0 1000000 []) := by
  have h := toposimplify_factor_rule sfnId t8 0
  exact ((h.2 trUnit [] rfl rfl).2.1) rfl

/-- Witness for the claim C9 theorem: the table coordinate
`(3/2, -7/4)` materializes as the truncated literal pair `[1, -1]`. -/
theorem to_dict_truncates_points_witness :
    (to_dict t9).2.coordinates = none ∧
    (to_dict t9).2.objects.get? 0 =
      some { gtype := GType.point, coords := GCoords.pt (1, -1) } := by
  have h := to_dict_truncates_points t9 [((3 : ℚ) / 2, (-7 : ℚ) / 4)] 0 g9 [0]
    rfl rfl rfl rfl
  refine ⟨h.1, ?_⟩
  rw [h.2]
  have e1 : pyInt ((3 : ℚ) / 2) = 1 := by
    unfold pyInt
    rw [if_pos (by norm_num : (0 : ℚ) ≤ (3 : ℚ) / 2)]
    norm_num
  have e2 : pyInt ((-7 : ℚ) / 4) = -1 := by
    unfold pyInt
    rw [if_neg (by norm_num : ¬((0 : ℚ) ≤ (-7 : ℚ) / 4))]
    rw [neg_div, Int.ceil_neg]
    norm_num
  have e3 : resolvePointList [((3 : ℚ) / 2, (-7 : ℚ) / 4)] [0] = [(1, -1)] := by
    unfold resolvePointList
    simp only [List.map_cons, List.map_nil]
    rw [show ([((3 : ℚ) / 2, (-7 : ℚ) / 4)].getD 0 (0, 0)) =
      ((3 : ℚ) / 2, (-7 : ℚ) / 4) from rfl]
    rw [e1, e2]
  rw [e3]
  rfl

end TopoSpec
